import Mathlib

/-!
Shallow embedding of the crimson/os/seastore segmented journal
(src/crimson/os/seastore/journal.h): the JournalSegmentManager,
RecordBatch and RecordSubmitter data model and the operations the
verified claims are about.  Pure member functions from the header are
translated directly; member functions whose bodies live in journal.cc
(not part of this tree) are modelled from the specification and marked
`Modelled from the spec:` in their doc comments.

Machine integers are modelled as `Nat`, with the modulus made explicit
where overflow matters (`segment_seq_t`); fallible operations and
assertion failures are modelled with `Option`.
-/

namespace CephJournal

/-! Basic seastore types.  A `journal_seq_t` is the pair
`(segment_seq, paddr)` where `paddr` is the pair
`(segment_id, segment_off)`; journal positions are totally ordered
lexicographically. -/

/-- Physical address `paddr_t`: pair `(segment_id, segment_off)`. -/
structure Paddr where
  segment : Nat
  offset : Nat
  deriving DecidableEq, Repr

/-- Ordered journal position `journal_seq_t`: pair `(segment_seq, paddr)`. -/
structure JournalSeq where
  segment_seq : Nat
  offset : Paddr
  deriving DecidableEq, Repr

/-- The `journal_seq_t` total order: lexicographic on
`(segment_seq, paddr.segment, paddr.offset)`. -/
def JournalSeq.le (a b : JournalSeq) : Bool :=
  decide (a.segment_seq < b.segment_seq ∨
    (a.segment_seq = b.segment_seq ∧
      (a.offset.segment < b.offset.segment ∨
        (a.offset.segment = b.offset.segment ∧
          a.offset.offset ≤ b.offset.offset))))

/-- Maximum of two positions in the `journal_seq_t` total order. -/
def JournalSeq.max (a b : JournalSeq) : JournalSeq :=
  if a.le b then b else a

/-! JournalSegmentManager. -/

/-- Modelled from the spec: `JournalSegmentManager::mark_committed` (body
in journal.cc, not in this tree): "update `committed_to` to
`max(committed_to, seq)`".  Returns the new `committed_to` cursor. -/
def mark_committed (committed_to new_committed_to : JournalSeq) : JournalSeq :=
  committed_to.max new_committed_to

/-- Folding `mark_committed` over a whole sequence of calls. -/
def mark_committed_trace (committed_to : JournalSeq)
    (seqs : List JournalSeq) : JournalSeq :=
  seqs.foldl mark_committed committed_to

/-- Round `x` down to a multiple of `align` (`p2align` from
include/intarith.h; for a power-of-two `align` this is `x & -align`). -/
def p2align (x align : Nat) : Nat :=
  align * (x / align)

/-- Round `x` up to a multiple of `align` (`p2roundup` from
include/intarith.h). -/
def p2roundup (x align : Nat) : Nat :=
  align * ((x + align - 1) / align)

/-- Translation of `JournalSegmentManager::get_max_write_length`
(journal.h:127-131): `segment_size - p2align(encoded_sizeof_bounded<
segment_header_t>(), block_size)`.  The encoded size of
`segment_header_t` is a parameter; its `denc` bound is defined outside
this tree, and the spec pads the header to one block, so it is below the
block size. -/
def get_max_write_length (segment_size block_size header_size : Nat) : Nat :=
  segment_size - p2align header_size block_size

/-- Translation of `JournalSegmentManager::needs_roll` (journal.h:171-174):
`length + written_to > write_capacity` of the current segment. -/
def needs_roll (written_to write_capacity len : Nat) : Bool :=
  decide (len + written_to > write_capacity)

/-- Modulus of the unsigned `segment_seq_t` type.  Modelled from the
spec: `segment_seq_t` is declared in seastore_types.h (outside this
tree) as a 32-bit unsigned integer, so the modulus is `2^32`. -/
def segSeqMod : Nat := 4294967296

/-- Translation of `JournalSegmentManager::get_segment_seq`
(journal.h:147-149): `next_journal_segment_seq - 1` computed in the
unsigned `segment_seq_t` type, i.e. modulo `segSeqMod`. -/
def jsm_get_segment_seq (next_journal_segment_seq : Nat) : Nat :=
  (next_journal_segment_seq + (segSeqMod - 1)) % segSeqMod

/-- Translation of `JournalSegmentManager::set_segment_seq`
(journal.h:155-157): `next_journal_segment_seq = current_seq + 1` in
`segment_seq_t`. -/
def jsm_set_segment_seq (current_seq : Nat) : Nat :=
  (current_seq + 1) % segSeqMod

/-- Translation of `JournalSegmentManager::reset` (journal.h:198-204),
which sets `next_journal_segment_seq = 0`; this is also the value
immediately after construction. -/
def jsm_reset_next_seq : Nat := 0

/-- The mutable state of `JournalSegmentManager` (journal.h:213-219)
needed by the claims: `next_journal_segment_seq`, `written_to` and the
`committed_to` cursor (which, per the source comment, "may be in a
previous journal segment"). -/
structure JSMState where
  next_journal_segment_seq : Nat
  written_to : Nat
  committed_to : JournalSeq
  /-- Identifier of `current_journal_segment`, as handed out by the
  segment provider. -/
  current_segment_id : Nat
  deriving DecidableEq, Repr

/-- Translation of `JournalSegmentManager::get_committed_to`
(journal.h:141-145): asserts
`committed_to.segment_seq == get_segment_seq()` and returns
`committed_to.offset.offset`.  The failed assertion is modelled as
`none`. -/
def jsm_get_committed_to (st : JSMState) : Option Nat :=
  if st.committed_to.segment_seq
      = jsm_get_segment_seq st.next_journal_segment_seq
  then some st.committed_to.offset.offset
  else none

/-- Modelled from the spec: `JournalSegmentManager::roll` (body in
journal.cc, not in this tree): "close current segment (if any), ask the
segment provider for the next `segment_id`, allocate it, initialize it
(write header), reset `written_to` to the post-header position, and bump
`segment_seq`".  The provider's choice of the next segment id is
modelled as the successor id; the post-header position is the
block-aligned header reservation passed as `header_reservation`. -/
def jsm_roll (header_reservation : Nat) (st : JSMState) : JSMState :=
  { st with
    next_journal_segment_seq := (st.next_journal_segment_seq + 1) % segSeqMod
    current_segment_id := st.current_segment_id + 1
    written_to := header_reservation }

/-- Translation of `JournalSegmentManager::get_current_write_seq`
(journal.h:190-196): `{get_segment_seq(), {current segment id,
written_to}}`. -/
def jsm_get_current_write_seq (st : JSMState) : JournalSeq :=
  { segment_seq := jsm_get_segment_seq st.next_journal_segment_seq
    offset := { segment := st.current_segment_id, offset := st.written_to } }

/-- Translation of `JournalSegmentManager::open` (journal.h:161-165):
`roll()` then return `get_current_write_seq()`; `Journal::open_for_write`
(journal.h:66-68) forwards to it.  The device I/O of the roll is elided;
the returned `journal_seq_t` is paired with the post-call state. -/
def open_for_write (header_reservation : Nat) (st : JSMState) :
    JournalSeq × JSMState :=
  let st' := jsm_roll header_reservation st
  (jsm_get_current_write_seq st', st')

/-! RecordBatch. -/

/-- Record size `record_size_t`: `{mdlength, dlength}`. -/
structure RecordSize where
  mdlength : Nat
  dlength : Nat
  deriving DecidableEq, Repr

/-- Translation of `RecordBatch::state_t` (journal.h:223-227). -/
inductive BatchState where
  | EMPTY
  | PENDING
  | SUBMITTING
  deriving DecidableEq, Repr

/-- The `RecordBatch` fields (journal.h:315-321) the claims depend on;
the `records` vector is kept only through its size. -/
structure RecordBatch where
  state : BatchState
  num_records : Nat
  encoded_length : Nat
  batch_capacity : Nat
  batch_flush_size : Nat
  deriving DecidableEq, Repr

/-- Translation of `RecordBatch::get_encoded_length` (journal.h:309-313):
`encoded_length + rsize.mdlength + rsize.dlength` (with
`assert(ret > 0)`). -/
def RecordBatch.get_encoded_length (b : RecordBatch)
    (rsize : RecordSize) : Nat :=
  b.encoded_length + rsize.mdlength + rsize.dlength

/-- Translation of `RecordBatch::can_batch` (journal.h:258-266): return
`0` if `records.size() >= batch_capacity || encoded_length >
batch_flush_size`, else the expected write size
`get_encoded_length(rsize)`. -/
def RecordBatch.can_batch (b : RecordBatch) (rsize : RecordSize) : Nat :=
  if b.num_records ≥ b.batch_capacity
      ∨ b.encoded_length > b.batch_flush_size
  then 0
  else b.get_encoded_length rsize

/-- A `RecordBatch` returned to the free pool: `EMPTY`, no records, zero
encoded length, configuration retained (journal.h `set_result`). -/
def RecordBatch.cleared (b : RecordBatch) : RecordBatch :=
  { b with state := .EMPTY, num_records := 0, encoded_length := 0 }

/-! RecordSubmitter. -/

/-- Translation of `RecordSubmitter::state_t` (journal.h:327-332);
`OVERFLOW` (`outstanding_io > io_depth_limit`) "is impossible". -/
inductive SubmitterState where
  | IDLE
  | PENDING
  | FULL
  deriving DecidableEq, Repr

/-- Modelled from the spec: `RecordSubmitter::update_state` (body in
journal.cc, not in this tree): the derived state is `IDLE` when
`num_outstanding_io == 0`, `PENDING` when `0 < num_outstanding_io <
io_depth_limit`, `FULL` when `num_outstanding_io == io_depth_limit`;
`num_outstanding_io > io_depth_limit` is an invariant violation
(modelled as `none`). -/
def update_state (io_depth_limit num_outstanding_io : Nat) :
    Option SubmitterState :=
  if num_outstanding_io = 0 then some .IDLE
  else if num_outstanding_io < io_depth_limit then some .PENDING
  else if num_outstanding_io = io_depth_limit then some .FULL
  else none

/-- The `RecordSubmitter` fields (journal.h:401-412) the claims depend
on.  `wait_submit_promise.has_value()` is modelled as a `Bool`; the
current batch is kept as a `RecordBatch`; `flushed` records, in order,
the sizes (record counts) of the batches handed to the
JournalSegmentManager. -/
structure RSState where
  num_outstanding_io : Nat
  state : SubmitterState
  wait_submit_promise : Bool
  current_batch : RecordBatch
  flushed : List Nat
  deriving DecidableEq, Repr

/-- Translation of `RecordSubmitter::increment_io` (journal.h:350-353):
`++num_outstanding_io; update_state();` — `none` when `update_state`
hits the impossible overflow. -/
def increment_io (io_depth_limit : Nat) (s : RSState) : Option RSState :=
  match update_state io_depth_limit (s.num_outstanding_io + 1) with
  | some st => some { s with
      num_outstanding_io := s.num_outstanding_io + 1
      state := st }
  | none => none

/-- Modelled from the spec: `RecordSubmitter::flush_current_batch` (body
in journal.cc, not in this tree): promote the current batch to
`SUBMITTING`, encode it and hand it to the JournalSegmentManager (one
new outstanding device write, hence `increment_io`), and pop a fresh
batch from the free pool. -/
def flush_current_batch (io_depth_limit : Nat) (s : RSState) :
    Option RSState :=
  increment_io io_depth_limit
    { s with
      current_batch := s.current_batch.cleared
      flushed := s.flushed ++ [s.current_batch.num_records] }

/-- Translation of `RecordSubmitter::decrement_io_with_flush`
(journal.h:355-372): `assert(num_outstanding_io > 0)` (modelled as
`none`); `--num_outstanding_io; update_state();`; fulfill and clear
`wait_submit_promise` when present; flush the current batch when it is
not empty. -/
def decrement_io_with_flush (io_depth_limit : Nat) (s : RSState) :
    Option RSState :=
  if s.num_outstanding_io = 0 then none
  else
    match update_state io_depth_limit (s.num_outstanding_io - 1) with
    | none => none
    | some st =>
      let s1 : RSState := { s with
        num_outstanding_io := s.num_outstanding_io - 1
        state := st }
      let s2 : RSState :=
        if s1.wait_submit_promise
        then { s1 with wait_submit_promise := false }
        else s1
      if s2.current_batch.state ≠ BatchState.EMPTY
      then flush_current_batch io_depth_limit s2
      else some s2

/-- First step of `decrement_io_with_flush`: `--num_outstanding_io`
under the assertion `num_outstanding_io > 0`. -/
def dec_step (s : RSState) : Option RSState :=
  if s.num_outstanding_io = 0 then none
  else some { s with num_outstanding_io := s.num_outstanding_io - 1 }

/-- Second step of `decrement_io_with_flush`: recompute the derived
state with `update_state`. -/
def upd_step (io_depth_limit : Nat) (s : RSState) : Option RSState :=
  match update_state io_depth_limit s.num_outstanding_io with
  | some st => some { s with state := st }
  | none => none

/-- Third step of `decrement_io_with_flush`: fulfill and clear
`wait_submit_promise` when a waiter is present. -/
def wake_step (s : RSState) : RSState :=
  if s.wait_submit_promise then { s with wait_submit_promise := false }
  else s

/-- Fourth step of `decrement_io_with_flush`: flush the current batch
when it is not empty. -/
def flush_step (io_depth_limit : Nat) (s : RSState) : Option RSState :=
  if s.current_batch.state ≠ BatchState.EMPTY
  then flush_current_batch io_depth_limit s
  else some s

/-- The `RecordSubmitter` state right after construction
(journal.h:401-412): no outstanding I/O, `IDLE`, no waiter, an empty
current batch with the configured capacity and flush size. -/
def initial_submitter (batch_capacity batch_flush_size : Nat) : RSState :=
  { num_outstanding_io := 0
    state := .IDLE
    wait_submit_promise := false
    current_batch :=
      { state := .EMPTY
        num_records := 0
        encoded_length := 0
        batch_capacity := batch_capacity
        batch_flush_size := batch_flush_size }
    flushed := [] }

/-- States of the `RecordSubmitter` reachable from the initial state by
interleavings of `increment_io` and `decrement_io_with_flush`.
`increment_io` steps are taken only from non-`FULL` states: per the
spec's scheduling decision, a submitter in `FULL` suspends on
`wait_submit_promise` instead of taking an I/O slot. -/
inductive Reachable (io_depth_limit : Nat) : RSState → Prop where
  | init (bc bf : Nat) : Reachable io_depth_limit (initial_submitter bc bf)
  | inc {s s' : RSState} : Reachable io_depth_limit s →
      s.state ≠ SubmitterState.FULL →
      increment_io io_depth_limit s = some s' →
      Reachable io_depth_limit s'
  | dec {s s' : RSState} : Reachable io_depth_limit s →
      decrement_io_with_flush io_depth_limit s = some s' →
      Reachable io_depth_limit s'

/-! Record submission (`Journal::submit_record` forwarding to
`RecordSubmitter::submit`). -/

/-- Outcome of a record submission. -/
inductive SubmitOutcome where
  | success (write_start : JournalSeq)
  | erange
  deriving DecidableEq, Repr

/-- Modelled from the spec: `RecordSubmitter::submit` (body in
journal.cc, not in this tree), reached through `Journal::submit_record`
(journal.h:93-98): "erange is surfaced if a single record's encoded
length exceeds max_write_length", leaving the journal usable; otherwise
the submission rolls the segment when `needs_roll` reports insufficient
room and appends the record at the reserved position, advancing
`written_to`.  Device I/O is elided. -/
def submit_record (max_write_length header_reservation
    write_capacity encoded_len : Nat) (st : JSMState) :
    SubmitOutcome × JSMState :=
  if encoded_len > max_write_length then (.erange, st)
  else
    let st1 :=
      if needs_roll st.written_to write_capacity encoded_len
      then jsm_roll header_reservation st
      else st
    (.success (jsm_get_current_write_seq st1),
      { st1 with written_to := st1.written_to + encoded_len })

/-! Helper lemmas on the `journal_seq_t` order. -/

theorem JournalSeq.le_refl (a : JournalSeq) : a.le a = true := by
  simp [JournalSeq.le]

theorem JournalSeq.le_total (a b : JournalSeq) :
    a.le b = true ∨ b.le a = true := by
  simp only [JournalSeq.le, decide_eq_true_eq]
  omega

theorem JournalSeq.le_trans {a b c : JournalSeq}
    (hab : a.le b = true) (hbc : b.le c = true) : a.le c = true := by
  simp only [JournalSeq.le, decide_eq_true_eq] at *
  omega

theorem JournalSeq.le_max_left (a b : JournalSeq) :
    a.le (a.max b) = true := by
  unfold JournalSeq.max
  by_cases h : a.le b = true
  · simp [h]
  · simpa [h] using JournalSeq.le_refl a

theorem JournalSeq.le_max_right (a b : JournalSeq) :
    b.le (a.max b) = true := by
  unfold JournalSeq.max
  by_cases h : a.le b = true
  · simpa [h] using JournalSeq.le_refl b
  · rcases JournalSeq.le_total a b with h' | h'
    · exact absurd h' h
    · simpa [h]

theorem mark_committed_le (ct seq : JournalSeq) :
    ct.le (mark_committed ct seq) = true :=
  JournalSeq.le_max_left ct seq

theorem mark_committed_trace_le (ct : JournalSeq) (seqs : List JournalSeq) :
    ct.le (mark_committed_trace ct seqs) = true := by
  induction seqs generalizing ct with
  | nil => exact JournalSeq.le_refl ct
  | cons s rest ih =>
      exact JournalSeq.le_trans (mark_committed_le ct s)
        (ih (mark_committed ct s))

/-- C1: every `mark_committed(seq)` call updates the `committed_to`
cursor to `max(committed_to, seq)` in the `journal_seq` total order —
the result is an upper bound of the old cursor and of `seq` and is one
of the two — so over any sequence of `mark_committed` calls the cursor
is monotonically non-decreasing and is never moved backwards. -/
theorem C1_mark_committed_monotone (ct seq : JournalSeq)
    (seqs : List JournalSeq) :
    mark_committed ct seq = ct.max seq ∧
    ct.le (mark_committed ct seq) = true ∧
    seq.le (mark_committed ct seq) = true ∧
    (mark_committed ct seq = ct ∨ mark_committed ct seq = seq) ∧
    ct.le (mark_committed_trace ct seqs) = true := by
  refine ⟨rfl, mark_committed_le ct seq, JournalSeq.le_max_right ct seq,
    ?_, mark_committed_trace_le ct seqs⟩
  unfold mark_committed JournalSeq.max
  by_cases h : ct.le seq = true <;> simp [h]

/-- C2 counterexample: a `PENDING` batch whose current encoded length
equals `batch_flush_size` (100), with room left in `batch_capacity`:
adding a record of size 50+50 would reach 200 encoded bytes, exceeding
`batch_flush_size`, yet `can_batch` returns 200 rather than 0 — the code
compares the *current* encoded length against the flush size, not the
would-be length. -/
theorem C2_can_batch_counterexample :
    RecordBatch.can_batch
        { state := .PENDING, num_records := 1, encoded_length := 100,
          batch_capacity := 16, batch_flush_size := 100 }
        { mdlength := 50, dlength := 50 } = 200 ∧
    RecordBatch.get_encoded_length
        { state := .PENDING, num_records := 1, encoded_length := 100,
          batch_capacity := 16, batch_flush_size := 100 }
        { mdlength := 50, dlength := 50 } >
      (100 : Nat) ∧
    (1 : Nat) + 1 ≤ 16 := by
  decide

/-- C2 (amended): for every batch not in the `SUBMITTING` state and
every non-trivial record size, `can_batch(rsize)` returns the encoded
length the batch would reach if the record were added, and returns 0
exactly when the batch already holds at least `batch_capacity` records
or its *current* encoded length already exceeds `batch_flush_size` (the
flush size is a soft cap: the record that pushes past it is still
admitted). -/
theorem C2_can_batch_amended (b : RecordBatch) (rsize : RecordSize)
    (_hstate : b.state ≠ BatchState.SUBMITTING)
    (hsize : 0 < rsize.mdlength + rsize.dlength) :
    (b.can_batch rsize = 0 ↔
      b.num_records ≥ b.batch_capacity
        ∨ b.encoded_length > b.batch_flush_size) ∧
    (b.can_batch rsize ≠ 0 →
      b.can_batch rsize
        = b.encoded_length + rsize.mdlength + rsize.dlength) := by
  unfold RecordBatch.can_batch RecordBatch.get_encoded_length
  by_cases h : b.num_records ≥ b.batch_capacity
      ∨ b.encoded_length > b.batch_flush_size <;> simp [h] <;> omega

/-- Witness for C2 (amended): a concrete `PENDING` batch and record
size. -/
theorem C2_can_batch_witness :
    (RecordBatch.can_batch
        { state := .PENDING, num_records := 2, encoded_length := 40,
          batch_capacity := 16, batch_flush_size := 100 }
        { mdlength := 8, dlength := 16 } = 0 ↔
      (2 : Nat) ≥ 16 ∨ (40 : Nat) > 100) ∧
    (RecordBatch.can_batch
        { state := .PENDING, num_records := 2, encoded_length := 40,
          batch_capacity := 16, batch_flush_size := 100 }
        { mdlength := 8, dlength := 16 } ≠ 0 →
      RecordBatch.can_batch
        { state := .PENDING, num_records := 2, encoded_length := 40,
          batch_capacity := 16, batch_flush_size := 100 }
        { mdlength := 8, dlength := 16 } = 40 + 8 + 16) :=
  C2_can_batch_amended
    { state := .PENDING, num_records := 2, encoded_length := 40,
      batch_capacity := 16, batch_flush_size := 100 }
    { mdlength := 8, dlength := 16 }
    (by decide) (by decide)

/-- C3: the code computes the header reservation with `p2align` (round
*down*), so with a 4096-byte block and a 100-byte encoded segment header
(the header's encoded size is below one block, since the on-disk format
pads it to a block) the reservation is 0 and `get_max_write_length`
returns the whole 65536-byte segment — not the `segment size − round-up
reservation` (at least one block) that the claim and the spec's on-disk
format require. -/
theorem C3_get_max_write_length_bug :
    get_max_write_length 65536 4096 100 = 65536 ∧
    p2align 100 4096 = 0 ∧
    p2roundup 100 4096 = 4096 ∧
    get_max_write_length 65536 4096 100 ≠ 65536 - p2roundup 100 4096 := by
  decide

/-- C4: for every state with an open current segment (so `written_to`
does not exceed the segment's write capacity), `needs_roll(len)` is true
iff `len + written_to` exceeds the write capacity, i.e. iff `len`
exceeds the remaining capacity of the current segment. -/
theorem C4_needs_roll_iff (written_to write_capacity len : Nat)
    (h : written_to ≤ write_capacity) :
    (needs_roll written_to write_capacity len = true ↔
      len + written_to > write_capacity) ∧
    (needs_roll written_to write_capacity len = true ↔
      len > write_capacity - written_to) := by
  unfold needs_roll
  constructor <;> simp <;> omega

/-- Witness for C4: block 4096, capacity 65536, `written_to` 61440. -/
theorem C4_needs_roll_witness :
    (needs_roll 61440 65536 8192 = true ↔ 8192 + 61440 > 65536) ∧
    (needs_roll 61440 65536 8192 = true ↔ 8192 > 65536 - 61440) :=
  C4_needs_roll_iff 61440 65536 8192 (by decide)

/-- C5 counterexample: on a fresh journal (next segment seq 0), a second
`open_for_write` does not leave the observable state of the first: the
returned first-record-writable position differs and `get_segment_seq`
differs (0 after the first call, 1 after the second). -/
theorem C5_open_for_write_counterexample :
    (open_for_write 4096
        (open_for_write 4096
          { next_journal_segment_seq := 0, written_to := 0,
            committed_to := ⟨0, ⟨0, 0⟩⟩, current_segment_id := 0 }).2).1 ≠
      (open_for_write 4096
        { next_journal_segment_seq := 0, written_to := 0,
          committed_to := ⟨0, ⟨0, 0⟩⟩, current_segment_id := 0 }).1 ∧
    jsm_get_segment_seq
      (open_for_write 4096
        (open_for_write 4096
          { next_journal_segment_seq := 0, written_to := 0,
            committed_to := ⟨0, ⟨0, 0⟩⟩, current_segment_id := 0 }).2).2.next_journal_segment_seq ≠
    jsm_get_segment_seq
      (open_for_write 4096
        { next_journal_segment_seq := 0, written_to := 0,
          committed_to := ⟨0, ⟨0, 0⟩⟩, current_segment_id := 0 }).2.next_journal_segment_seq := by
  decide

/-- C5 (amended): `open_for_write` is not idempotent — every call rolls
into a fresh segment, so a second call increments the observable
`get_segment_seq` by one (modulo the `segment_seq_t` width) and moves
the first record-writable position to the next segment; it is intended
to be called once per journal instance. -/
theorem C5_open_for_write_rolls (header_reservation : Nat) (st : JSMState) :
    (open_for_write header_reservation
        (open_for_write header_reservation st).2).1.segment_seq
      = ((open_for_write header_reservation st).1.segment_seq + 1)
          % segSeqMod ∧
    (open_for_write header_reservation
        (open_for_write header_reservation st).2).1.offset.segment
      = (open_for_write header_reservation st).1.offset.segment + 1 := by
  unfold open_for_write jsm_roll jsm_get_current_write_seq
    jsm_get_segment_seq segSeqMod
  refine ⟨?_, rfl⟩
  simp only
  omega

/-! Helper lemmas for the RecordSubmitter state machine. -/

theorem update_state_eq_some {limit n : Nat} {st : SubmitterState}
    (h : update_state limit n = some st) :
    (n = 0 ∧ st = SubmitterState.IDLE) ∨
    (0 < n ∧ n < limit ∧ st = SubmitterState.PENDING) ∨
    (0 < n ∧ n = limit ∧ st = SubmitterState.FULL) := by
  unfold update_state at h
  split_ifs at h with h1 h2 h3 <;> injection h with h4 <;> subst h4
  · exact Or.inl ⟨h1, rfl⟩
  · exact Or.inr (Or.inl ⟨by omega, h2, rfl⟩)
  · exact Or.inr (Or.inr ⟨by omega, h3, rfl⟩)

theorem update_state_char {limit n : Nat} {st : SubmitterState}
    (hl : 0 < limit) (h : update_state limit n = some st) :
    n ≤ limit ∧ (st = SubmitterState.IDLE ↔ n = 0) ∧
    (st = SubmitterState.PENDING ↔ 0 < n ∧ n < limit) ∧
    (st = SubmitterState.FULL ↔ n = limit) := by
  rcases update_state_eq_some h with ⟨h1, rfl⟩ | ⟨h1, h2, rfl⟩ | ⟨h1, h2, rfl⟩ <;>
    refine ⟨by omega, ?_, ?_, ?_⟩ <;> simp <;> omega

theorem increment_io_inv {limit : Nat} {s s' : RSState}
    (h : increment_io limit s = some s') :
    update_state limit s'.num_outstanding_io = some s'.state := by
  unfold increment_io at h
  cases hu : update_state limit (s.num_outstanding_io + 1) with
  | none => rw [hu] at h; simp at h
  | some st =>
      rw [hu] at h
      injection h with h4
      subst h4
      simpa using hu

theorem decrement_io_with_flush_inv {limit : Nat} {s s' : RSState}
    (h : decrement_io_with_flush limit s = some s') :
    update_state limit s'.num_outstanding_io = some s'.state := by
  unfold decrement_io_with_flush at h
  split_ifs at h with h0
  cases hu : update_state limit (s.num_outstanding_io - 1) with
  | none => rw [hu] at h; simp at h
  | some st =>
      rw [hu] at h
      dsimp only at h
      split_ifs at h with hw hb hb2
      all_goals first
        | exact increment_io_inv h
        | (injection h with h4; subst h4; simpa using hu)

theorem reachable_state_eq {limit : Nat} {s : RSState}
    (h : Reachable limit s) :
    update_state limit s.num_outstanding_io = some s.state := by
  induction h with
  | init bc bf => rfl
  | inc _ _ hs _ => exact increment_io_inv hs
  | dec _ hs _ => exact decrement_io_with_flush_inv hs

/-- C6: in every state of the RecordSubmitter reachable by interleaving
`increment_io` and `decrement_io_with_flush` steps from the initial
state (`num_outstanding_io == 0`), `num_outstanding_io` never exceeds
`io_depth_limit`, and the derived state is `IDLE` exactly when
`num_outstanding_io == 0`, `PENDING` exactly when
`0 < num_outstanding_io < io_depth_limit`, and `FULL` exactly when
`num_outstanding_io == io_depth_limit`. -/
theorem C6_submitter_state_invariant (limit : Nat) (s : RSState)
    (hl : 0 < limit) (h : Reachable limit s) :
    s.num_outstanding_io ≤ limit ∧
    (s.state = SubmitterState.IDLE ↔ s.num_outstanding_io = 0) ∧
    (s.state = SubmitterState.PENDING ↔
      0 < s.num_outstanding_io ∧ s.num_outstanding_io < limit) ∧
    (s.state = SubmitterState.FULL ↔ s.num_outstanding_io = limit) :=
  update_state_char hl (reachable_state_eq h)

/-- Witness for C6: with `io_depth_limit = 2`, the state reached by one
`increment_io` from the initial state. -/
theorem C6_submitter_state_witness :
    (⟨1, .PENDING, false, ⟨.EMPTY, 0, 0, 16, 100⟩, []⟩
        : RSState).num_outstanding_io ≤ 2 ∧
    ((⟨1, .PENDING, false, ⟨.EMPTY, 0, 0, 16, 100⟩, []⟩
        : RSState).state = SubmitterState.IDLE ↔ (1 : Nat) = 0) ∧
    ((⟨1, .PENDING, false, ⟨.EMPTY, 0, 0, 16, 100⟩, []⟩
        : RSState).state = SubmitterState.PENDING ↔
      0 < (1 : Nat) ∧ (1 : Nat) < 2) ∧
    ((⟨1, .PENDING, false, ⟨.EMPTY, 0, 0, 16, 100⟩, []⟩
        : RSState).state = SubmitterState.FULL ↔ (1 : Nat) = 2) :=
  C6_submitter_state_invariant 2 _ (by decide)
    (Reachable.inc (Reachable.init 16 100) (by decide) (by decide))

theorem decrement_io_with_flush_eq_steps (limit : Nat) (s : RSState) :
    decrement_io_with_flush limit s
      = (((dec_step s).bind (upd_step limit)).map wake_step).bind
          (flush_step limit) := by
  unfold decrement_io_with_flush dec_step upd_step wake_step flush_step
  by_cases h0 : s.num_outstanding_io = 0
  · simp [h0]
  · cases hu : update_state limit (s.num_outstanding_io - 1) with
    | none => simp [h0, hu]
    | some st =>
        by_cases hw : s.wait_submit_promise <;>
          by_cases hb : s.current_batch.state = BatchState.EMPTY <;>
            simp [h0, hu, hw, hb]

/-- C7: for every RecordSubmitter state with `num_outstanding_io > 0`
(and within the depth limit), `decrement_io_with_flush` is exactly the
in-order composition of its four steps — decrement `num_outstanding_io`,
recompute the derived state, fulfill and clear `wait_submit_promise` if
a waiter is present, and finally flush the current batch if it is
non-empty — and the call succeeds leaving no waiter and no non-empty
current batch unflushed: the batch slot is empty and a previously
non-empty batch has been handed to the JournalSegmentManager. -/
theorem C7_decrement_io_with_flush_order (limit : Nat) (s : RSState)
    (h1 : 0 < s.num_outstanding_io) (h2 : s.num_outstanding_io ≤ limit) :
    decrement_io_with_flush limit s
      = (((dec_step s).bind (upd_step limit)).map wake_step).bind
          (flush_step limit) ∧
    ∃ s', decrement_io_with_flush limit s = some s' ∧
      s'.wait_submit_promise = false ∧
      s'.current_batch.state = BatchState.EMPTY ∧
      s'.flushed = (if s.current_batch.state = BatchState.EMPTY
        then s.flushed
        else s.flushed ++ [s.current_batch.num_records]) := by
  refine ⟨decrement_io_with_flush_eq_steps limit s, ?_⟩
  have hn1 : s.num_outstanding_io - 1 + 1 = s.num_outstanding_io := by
    omega
  obtain ⟨st1, hu⟩ :
      ∃ st1, update_state limit (s.num_outstanding_io - 1) = some st1 := by
    unfold update_state
    split_ifs <;> first | exact ⟨_, rfl⟩ | omega
  obtain ⟨st2, hu2⟩ :
      ∃ st2, update_state limit s.num_outstanding_io = some st2 := by
    unfold update_state
    split_ifs <;> first | exact ⟨_, rfl⟩ | omega
  by_cases hb : s.current_batch.state = BatchState.EMPTY
  · refine ⟨⟨s.num_outstanding_io - 1, st1, false, s.current_batch,
      s.flushed⟩, ?_, rfl, hb, by simp [hb]⟩
    unfold decrement_io_with_flush
    rw [if_neg (by omega : ¬ s.num_outstanding_io = 0), hu]
    by_cases hw : s.wait_submit_promise <;> simp [hw, hb]
  · refine ⟨⟨s.num_outstanding_io - 1 + 1, st2, false,
      s.current_batch.cleared,
      s.flushed ++ [s.current_batch.num_records]⟩, ?_, rfl, ?_,
      by simp [hb]⟩
    · unfold decrement_io_with_flush flush_current_batch increment_io
      rw [if_neg (by omega : ¬ s.num_outstanding_io = 0), hu]
      by_cases hw : s.wait_submit_promise <;>
        simp [hw, hb, hn1, hu2]
    · simp [RecordBatch.cleared]

/-- Witness for C7: depth limit 2, one outstanding I/O, a waiter
present, and a pending single-record batch. -/
theorem C7_decrement_io_with_flush_witness :
    decrement_io_with_flush 2
        ⟨1, .PENDING, true, ⟨.PENDING, 1, 40, 16, 100⟩, []⟩
      = (((dec_step ⟨1, .PENDING, true, ⟨.PENDING, 1, 40, 16, 100⟩, []⟩).bind
            (upd_step 2)).map wake_step).bind (flush_step 2) ∧
    ∃ s', decrement_io_with_flush 2
        ⟨1, .PENDING, true, ⟨.PENDING, 1, 40, 16, 100⟩, []⟩ = some s' ∧
      s'.wait_submit_promise = false ∧
      s'.current_batch.state = BatchState.EMPTY ∧
      s'.flushed = (if (⟨.PENDING, 1, 40, 16, 100⟩ : RecordBatch).state
            = BatchState.EMPTY
        then ([] : List Nat)
        else ([] : List Nat) ++ [(⟨.PENDING, 1, 40, 16, 100⟩
          : RecordBatch).num_records]) :=
  C7_decrement_io_with_flush_order 2
    ⟨1, .PENDING, true, ⟨.PENDING, 1, 40, 16, 100⟩, []⟩
    (by decide) (by decide)

/-- C8: a record whose encoded length exceeds `max_write_length` fails
with `erange` leaving the JournalSegmentManager state untouched, so the
journal remains usable: any subsequent submission of an admissible
record succeeds; a record of encoded length exactly `max_write_length`
succeeds alone, and one byte larger fails with `erange`. -/
theorem C8_submit_record_erange (mwl hdr cap : Nat) (st : JSMState) :
    (∀ len, len > mwl →
      submit_record mwl hdr cap len st = (SubmitOutcome.erange, st)) ∧
    (∀ len, len ≤ mwl → ∃ seq st',
      submit_record mwl hdr cap len st = (SubmitOutcome.success seq, st')) ∧
    submit_record mwl hdr cap (mwl + 1) st = (SubmitOutcome.erange, st) ∧
    (∀ len, len ≤ mwl → ∃ seq st',
      submit_record mwl hdr cap len
          (submit_record mwl hdr cap (mwl + 1) st).2
        = (SubmitOutcome.success seq, st')) := by
  have herange : ∀ len, len > mwl →
      submit_record mwl hdr cap len st = (SubmitOutcome.erange, st) := by
    intro len hlen
    unfold submit_record
    rw [if_pos hlen]
  have hok : ∀ len, len ≤ mwl → ∃ seq st',
      submit_record mwl hdr cap len st
        = (SubmitOutcome.success seq, st') := by
    intro len hlen
    unfold submit_record
    rw [if_neg (by omega : ¬ len > mwl)]
    exact ⟨_, _, rfl⟩
  refine ⟨herange, hok, herange (mwl + 1) (by omega), ?_⟩
  intro len hlen
  rw [herange (mwl + 1) (by omega)]
  exact hok len hlen

/-- Witness for C8: `max_write_length` 61440 (a 64 KiB segment minus one
4 KiB header block): 61441 bytes fail with `erange` without touching the
state, 61440 bytes succeed. -/
theorem C8_submit_record_witness :
    submit_record 61440 4096 65536 61441
        ⟨0, 4096, ⟨0, ⟨0, 0⟩⟩, 0⟩
      = (SubmitOutcome.erange, ⟨0, 4096, ⟨0, ⟨0, 0⟩⟩, 0⟩) ∧
    ∃ seq st', submit_record 61440 4096 65536 61440
        ⟨0, 4096, ⟨0, ⟨0, 0⟩⟩, 0⟩
      = (SubmitOutcome.success seq, st') :=
  ⟨(C8_submit_record_erange 61440 4096 65536
      ⟨0, 4096, ⟨0, ⟨0, 0⟩⟩, 0⟩).1 61441 (by omega),
   (C8_submit_record_erange 61440 4096 65536
      ⟨0, 4096, ⟨0, ⟨0, 0⟩⟩, 0⟩).2.1 61440 (by omega)⟩

/-- C9: `get_committed_to` asserts that `committed_to.segment_seq`
equals the current `get_segment_seq()`; under that precondition it
returns `committed_to.offset.offset`, and in any state in which
`committed_to` still lies in a different (previous) journal segment —
which the state representation permits — the assertion fails (modelled
as `none`) rather than returning a value. -/
theorem C9_get_committed_to_assert (st : JSMState) :
    (st.committed_to.segment_seq
        = jsm_get_segment_seq st.next_journal_segment_seq →
      jsm_get_committed_to st = some st.committed_to.offset.offset) ∧
    (st.committed_to.segment_seq
        ≠ jsm_get_segment_seq st.next_journal_segment_seq →
      jsm_get_committed_to st = none) := by
  unfold jsm_get_committed_to
  constructor <;> intro h <;> simp [h]

/-- Witness for C9: with `next_journal_segment_seq = 1` the current
segment seq is 0; a `committed_to` in segment seq 0 passes the
assertion and yields its offset 5, a stale `committed_to` in segment
seq 7 trips the assertion. -/
theorem C9_get_committed_to_witness :
    jsm_get_committed_to ⟨1, 8192, ⟨0, ⟨0, 5⟩⟩, 0⟩ = some 5 ∧
    jsm_get_committed_to ⟨1, 8192, ⟨7, ⟨0, 5⟩⟩, 0⟩ = none :=
  ⟨(C9_get_committed_to_assert ⟨1, 8192, ⟨0, ⟨0, 5⟩⟩, 0⟩).1 (by decide),
   (C9_get_committed_to_assert ⟨1, 8192, ⟨7, ⟨0, 5⟩⟩, 0⟩).2 (by decide)⟩

/-- C10: `get_segment_seq` returns `next_journal_segment_seq - 1` in the
unsigned `segment_seq_t` type: after `set_segment_seq(s)` (which stores
`s + 1`) a subsequent `get_segment_seq()` returns `s` for every
representable `s`, and immediately after construction or `reset()`
(`next_journal_segment_seq == 0`) it wraps and returns the maximum
value of `segment_seq_t`. -/
theorem C10_segment_seq_round_trip (s : Nat) (hs : s < segSeqMod) :
    jsm_get_segment_seq (jsm_set_segment_seq s) = s ∧
    jsm_get_segment_seq jsm_reset_next_seq = segSeqMod - 1 := by
  unfold jsm_get_segment_seq jsm_set_segment_seq jsm_reset_next_seq
    segSeqMod at *
  constructor <;> omega

/-- Witness for C10: round trip at `s = 5` and the wrap after reset. -/
theorem C10_segment_seq_witness :
    jsm_get_segment_seq (jsm_set_segment_seq 5) = 5 ∧
    jsm_get_segment_seq jsm_reset_next_seq = segSeqMod - 1 :=
  C10_segment_seq_round_trip 5 (by decide)

end CephJournal
